import Mathlib

/-!
Verification of the job-processing pipeline of the multimodal-agent repository:
the workflow router and stage functions (`app/agents/graph.py`,
`app/agents/tools/*.py`), the job lifecycle manager
(`app/workers/tasks.py`), the job-snapshot cache TTL policy
(`app/api/v1/jobs.py`), the sliding-window rate limiter
(`app/core/rate_limiter.py`), and the LLM adapter error taxonomy
(`app/adapters/llm_adapter.py`).

The Python source is embedded shallowly: external collaborators (database
rows, object storage, the Redis store, the three inference endpoints and
the CPython syntax checker) are modelled as explicit environment inputs,
and every stateful routine is a pure function of its environment that
returns the final persisted data together with a trace of the externally
visible operations it performed, in order.
-/

/-- Truthiness of an optional string, as Python evaluates `if x:` for a
value of type `str | None`: `None` and the empty string are falsy. -/
def optTruthy : Option String → Bool
  | none => false
  | some s => s ≠ ""

/-- Job status enumeration from `app/models/job.py` (`class JobStatus`). -/
inductive JobStatus where
  | pending
  | processing
  | validating
  | executing
  | completed
  | failed
deriving DecidableEq, Repr

/-- TTL selection for cached job snapshots, from `get_job` in
`app/api/v1/jobs.py` (lines 263-271): one hour for terminal statuses,
ten seconds otherwise. -/
def job_snapshot_ttl (status : JobStatus) : Nat :=
  if status = JobStatus.completed ∨ status = JobStatus.failed then 3600
  else 10

/-- Sentinel node name used by the graph library for termination
(`langgraph.graph.END`). Its concrete value is irrelevant to the claims;
what matters is that it differs from the two stage node names. -/
def ENDnode : String := "__end__"

/-- Routing function `should_continue` from `app/agents/graph.py`
(lines 18-46), as a function of the two fields of the state it reads:
`current_step` (via `state.get("current_step", "")`) and `error`
(via `state.get("error")`). -/
def should_continue (current_step : Option String) (error : Option String) :
    String :=
  let cs := current_step.getD ""
  if optTruthy error ∧ cs = "error" then ENDnode
  else if cs = "analyze_complete" then "plan_approach"
  else if cs = "planning_complete" then "generate_code"
  else if cs = "codegen_complete" ∨ cs = "codegen_complete_with_errors" then
    ENDnode
  else ENDnode

/-- Reference router written from the words of the specification: if
`error` is set (present, regardless of content) and `current_step` equals
"error", terminate; else dispatch on `current_step`, with every
unrecognised or absent value terminating. -/
def routerSpec (current_step : Option String) (error : Option String) :
    String :=
  if error.isSome ∧ current_step = some "error" then ENDnode
  else if current_step = some "analyze_complete" then "plan_approach"
  else if current_step = some "planning_complete" then "generate_code"
  else if current_step = some "codegen_complete" ∨
      current_step = some "codegen_complete_with_errors" then ENDnode
  else ENDnode

/-! ### Code extraction (`extract_python_code` in
`app/agents/tools/codegen_tool.py`, lines 17-42)

The Python function applies `re.findall(r"```python\s*(.*?)\s*```", text,
re.DOTALL)`, falls back to the untagged pattern `r"```\s*(.*?)\s*```"`,
and finally to `text.strip()`. The two regular expressions are embedded
below over `List Char` with Python's leftmost-match semantics: at the
first position where the literal opening marker matches and a closing
fence exists later, the captured group is the text after the marker with
leading whitespace removed (the greedy leading `\s*`), up to the first
subsequent fence, with trailing whitespace removed (the lazy group
backtracking against the trailing `\s*`). -/

/-- Whitespace predicate of Python's `str.isspace` per character, which is
also the character set matched by `\s` in `re` patterns over `str`. -/
def isPySpace (c : Char) : Bool :=
  c.toNat ∈ [0x9, 0xa, 0xb, 0xc, 0xd, 0x1c, 0x1d, 0x1e, 0x1f, 0x20,
    0x85, 0xa0, 0x1680, 0x2000, 0x2001, 0x2002, 0x2003, 0x2004, 0x2005,
    0x2006, 0x2007, 0x2008, 0x2009, 0x200a, 0x2028, 0x2029, 0x202f,
    0x205f, 0x3000]

/-- Three-backtick fence marker (code point 96 is the backtick). -/
def fenceMark : List Char := [Char.ofNat 96, Char.ofNat 96, Char.ofNat 96]

/-- Tag of a python-tagged fence: the characters following the opening
fence marker in the literal `python` pattern. -/
def pyTag : List Char := ['p', 'y', 't', 'h', 'o', 'n']

/-- Literal prefix test on character lists (pattern, text). -/
def startsWithL : List Char → List Char → Bool
  | [], _ => true
  | _ :: _, [] => false
  | p :: ps, c :: cs => p = c && startsWithL ps cs

/-- Characters before the first occurrence of the closing fence marker,
or `none` when no fence occurs in the list. -/
def beforeClose : List Char → Option (List Char)
  | [] => none
  | c :: cs =>
      if startsWithL fenceMark (c :: cs) then some []
      else (beforeClose cs).map (fun g => c :: g)

/-- Removal of trailing Python whitespace. -/
def dropTrailingWs (l : List Char) : List Char :=
  (l.reverse.dropWhile isPySpace).reverse

/-- Python's `str.strip()` with no arguments: removal of leading and
trailing whitespace. -/
def pyStrip (l : List Char) : List Char :=
  dropTrailingWs (l.dropWhile isPySpace)

/-- Match of the pattern made of the opening marker ```` ``` ````
followed by `tag`, then `\s*(.*?)\s*` and a closing fence, anchored at
the head of `l`. Returns the captured group of the regex (leading
whitespace eaten greedily, group lazily minimal against the trailing
`\s*` and the closing fence). -/
def regexMatchAt (tag : List Char) (l : List Char) : Option (List Char) :=
  if startsWithL (fenceMark ++ tag) l then
    (beforeClose ((l.drop (3 + tag.length)).dropWhile isPySpace)).map
      dropTrailingWs
  else none

/-- Captured group of the first (leftmost) match of the fenced-block
pattern with the given tag, as `re.findall(...)[0]` yields it. -/
def findFirstBlock (tag : List Char) : List Char → Option (List Char)
  | [] => none
  | c :: cs =>
      match regexMatchAt tag (c :: cs) with
      | some g => some g
      | none => findFirstBlock tag cs

/-- Embedding of `extract_python_code` from
`app/agents/tools/codegen_tool.py`: first python-tagged fenced block,
else first fenced block of any kind, else the whole input; the result is
stripped in every case (`matches[0].strip()` / `text.strip()`). -/
def extract_python_code_chars (text : List Char) : List Char :=
  match findFirstBlock pyTag text with
  | some g => pyStrip g
  | none =>
      match findFirstBlock [] text with
      | some g => pyStrip g
      | none => pyStrip text

/-- String-level wrapper of the extraction function. -/
def extract_python_code (text : String) : String :=
  String.mk (extract_python_code_chars text.data)

/-- Specification-side reading of "the trimmed inner text of the first
fenced block tagged `tag`": at the first occurrence of the opening marker
```` ``` ````-plus-`tag`, the text strictly between that marker and the
next closing fence, trimmed once; `none` when the first opening marker
has no closing fence after it, or no opening marker occurs at all. -/
def specFirstBlock (tag : List Char) : List Char → Option (List Char)
  | [] => none
  | c :: cs =>
      if startsWithL (fenceMark ++ tag) (c :: cs) then
        (beforeClose ((c :: cs).drop (3 + tag.length))).map pyStrip
      else specFirstBlock tag cs

/-- Specification-side extraction as the amended claim words it: first
python-tagged block, else first fenced block of any kind (tag text
included), else the whole input trimmed. -/
def specExtract (text : List Char) : List Char :=
  match specFirstBlock pyTag text with
  | some g => g
  | none =>
      match specFirstBlock [] text with
      | some g => g
      | none => pyStrip text

/-- Specification-side reading of "the first untagged fenced block" used
by the original claim: an opening fence whose body starts with
whitespace, another fence, or nothing — i.e. a fence carrying no language
tag — followed by a closing fence. -/
def specFirstUntagged : List Char → Option (List Char)
  | [] => none
  | c :: cs =>
      if startsWithL fenceMark (c :: cs) &&
          (match (c :: cs).drop 3 with
           | [] => true
           | d :: ds => isPySpace d || startsWithL fenceMark (d :: ds)) then
        (beforeClose ((c :: cs).drop 3)).map pyStrip
      else specFirstUntagged cs

/-! ### Sliding-window rate limiter (`RateLimiter.is_allowed` in
`app/core/rate_limiter.py`, lines 48-92)

The Redis per-key sorted set is modelled as a list of scores (the member
of each entry is `str(now)`, the string rendering of its score, so a
member is identified with its score), together with the key expiry set by
`EXPIRE`. Timestamps are rationals. The store is a total map from key
strings, absent keys holding the empty set. The parameter `failAt` names
the index of the Redis call (0 = `zremrangebyscore`, 1 = `zcard`,
2 = `zadd`, 3 = `expire`) that raises, if any: the exception is caught by
the `except` clause, which fails open. -/

/-- Value held at one Redis key: the sorted-set scores and the expiry. -/
structure KeyData where
  entries : List Rat
  ttl : Option Nat
deriving DecidableEq

/-- Total map from Redis keys to their data; absent keys hold `⟨[], none⟩`. -/
def RLStore : Type := String → KeyData

/-- Write of one key. -/
def storeSet (st : RLStore) (k : String) (d : KeyData) : RLStore :=
  fun q => if q = k then d else st q

/-- Redis `ZREMRANGEBYSCORE key lo hi`: removal of members with scores in
the inclusive range. -/
def zremrangebyscore (l : List Rat) (lo hi : Rat) : List Rat :=
  l.filter (fun s => !(decide (lo ≤ s) && decide (s ≤ hi)))

/-- Redis `ZADD key {str(now): now}`: insertion of the member, a no-op on
the member set when the member is already present. -/
def zaddScore (l : List Rat) (x : Rat) : List Rat :=
  if x ∈ l then l else l ++ [x]

/-- Rate-limit key for an identifier (`f"rate_limit:{identifier}"`). -/
def keyOf (identifier : String) : String := "rate_limit:" ++ identifier

/-- Embedding of `RateLimiter.is_allowed`. Arguments: the configured
limit and window, whether a Redis connection object exists
(`cache_manager.redis`), which Redis call (if any) raises, the current
time `time.time()`, the store contents, and the identifier. Returns the
resulting store and the `(allowed, remaining)` pair. -/
def is_allowed (requests_limit window_seconds : Nat) (conn : Bool)
    (failAt : Option Nat) (now : Rat) (st : RLStore) (identifier : String) :
    RLStore × Bool × Int :=
  if conn = false then (st, true, (requests_limit : Int))
  else
    let key := keyOf identifier
    let window_start : Rat := now - (window_seconds : Rat)
    if failAt = some 0 then (st, true, (requests_limit : Int)) else
    let d0 := st key
    let st1 := storeSet st key
      ⟨zremrangebyscore d0.entries 0 window_start, d0.ttl⟩
    if failAt = some 1 then (st1, true, (requests_limit : Int)) else
    let current_count := (st1 key).entries.length
    if current_count ≥ requests_limit then (st1, false, 0)
    else
    if failAt = some 2 then (st1, true, (requests_limit : Int)) else
    let d1 := st1 key
    let st2 := storeSet st1 key ⟨zaddScore d1.entries now, d1.ttl⟩
    if failAt = some 3 then (st2, true, (requests_limit : Int)) else
    let d2 := st2 key
    let st3 := storeSet st2 key ⟨d2.entries, some window_seconds⟩
    (st3, true, (requests_limit : Int) - (current_count : Int) - 1)

/-! ### LLM adapter error taxonomy (`app/adapters/llm_adapter.py`)

`TextLLMAdapter.generate` (lines 106-172) and
`VisionLLMAdapter.generate_with_image` (lines 232-316) issue one HTTP
POST and classify failures. The HTTP interaction is modelled as its
outcome: either the client raised (connect error, timeout, or another
transport error such as a read error), or a response arrived with a
status code, a body text, and — for the 200 path — the result of
`response.json()["choices"][0]["message"]["content"]`: content, a
missing key (Python `KeyError`), an empty `choices` list (Python
`IndexError`), or an undecodable body (Python `json.JSONDecodeError`).
The embeddings return how each case surfaces to the caller. -/

/-- Exception raised by the HTTP client call, if any. -/
inductive HttpxExc where
  | connectError (msg : String)
  | timeoutExc (msg : String)
  | otherSocket (msg : String)
deriving DecidableEq, Repr

/-- Result of reading `choices[0].message.content` from a 200 body. -/
inductive BodyParse where
  | ok (content : String)
  | missingKey (key : String)
  | emptyChoices
  | notJson (msg : String)
deriving DecidableEq, Repr

/-- Outcome of the single HTTP request. -/
inductive HttpOutcome where
  | exc (e : HttpxExc)
  | resp (status : Nat) (bodyText : String) (parse : BodyParse)
deriving DecidableEq, Repr

/-- How a generate call surfaces to the caller: a value, one of the two
adapter error kinds (`LLMConnectionError`, `LLMResponseError`), or an
exception of any other type propagating uncaught. -/
inductive GenOutcome where
  | ok (text : String)
  | connectionError (msg : String)
  | responseError (msg : String)
  | untyped (excName : String) (msg : String)
deriving DecidableEq, Repr

/-- Discriminator for the two typed adapter error kinds. -/
def isTypedAdapterError : GenOutcome → Bool
  | GenOutcome.connectionError _ => true
  | GenOutcome.responseError _ => true
  | _ => false

/-- Embedding of `TextLLMAdapter.generate`: non-200 raises
`LLMResponseError`; `httpx.ConnectError` and `httpx.TimeoutException`
are mapped to `LLMConnectionError`; `KeyError` is mapped to
`LLMResponseError`; every other exception (other transport errors, JSON
decoding failures, `IndexError` on an empty `choices` list) propagates
uncaught. -/
def TextLLMAdapter.generate (model : String) (o : HttpOutcome) :
    GenOutcome :=
  match o with
  | HttpOutcome.exc (HttpxExc.connectError m) =>
      GenOutcome.connectionError
        ("Failed to connect to " ++ model ++ ": " ++ m)
  | HttpOutcome.exc (HttpxExc.timeoutExc m) =>
      GenOutcome.connectionError
        ("Request to " ++ model ++ " timed out: " ++ m)
  | HttpOutcome.exc (HttpxExc.otherSocket m) =>
      GenOutcome.untyped "httpx.TransportError" m
  | HttpOutcome.resp status body parse =>
      if status ≠ 200 then
        GenOutcome.responseError
          ("LLM returned status " ++ toString status ++ ": " ++ body)
      else
        match parse with
        | BodyParse.ok content => GenOutcome.ok content
        | BodyParse.missingKey k =>
            GenOutcome.responseError
              ("Unexpected response format from " ++ model ++ ": " ++ k)
        | BodyParse.emptyChoices =>
            GenOutcome.untyped "IndexError" "list index out of range"
        | BodyParse.notJson m =>
            GenOutcome.untyped "json.JSONDecodeError" m

/-- Embedding of `VisionLLMAdapter.generate_with_image`: identical to the
text variant except that its `try` block has no `except KeyError`
clause, so a missing key in the 200 body also propagates uncaught. -/
def VisionLLMAdapter.generate_with_image (model : String)
    (o : HttpOutcome) : GenOutcome :=
  match o with
  | HttpOutcome.exc (HttpxExc.connectError m) =>
      GenOutcome.connectionError
        ("Failed to connect to " ++ model ++ ": " ++ m)
  | HttpOutcome.exc (HttpxExc.timeoutExc m) =>
      GenOutcome.connectionError
        ("Request to " ++ model ++ " timed out: " ++ m)
  | HttpOutcome.exc (HttpxExc.otherSocket m) =>
      GenOutcome.untyped "httpx.TransportError" m
  | HttpOutcome.resp status body parse =>
      if status ≠ 200 then
        GenOutcome.responseError
          ("LLM returned status " ++ toString status ++ ": " ++ body)
      else
        match parse with
        | BodyParse.ok content => GenOutcome.ok content
        | BodyParse.missingKey k => GenOutcome.untyped "KeyError" k
        | BodyParse.emptyChoices =>
            GenOutcome.untyped "IndexError" "list index out of range"
        | BodyParse.notJson m =>
            GenOutcome.untyped "json.JSONDecodeError" m

/-! ### Workflow stages and job lifecycle
(`app/agents/tools/vision_tool.py`, `reasoning_tool.py`,
`codegen_tool.py`, `app/agents/graph.py`, `app/workers/tasks.py`)

The three inference endpoints and the CPython parser are environment
inputs. Each adapter response is an arbitrary function of exactly the
data the code feeds into the prompt template for that stage (the
template itself is a fixed injective formatting of those inputs), and a
call may instead raise, carrying an exception text. `pyCompile` models
`compile(code, "<string>", "exec")`: `none` when the code parses,
`some (lineno, msg)` for a `SyntaxError`. Each stage returns its state
update (present keys only, as the Python dicts do) together with the
inference-call events it performed. The lifecycle routine additionally
records each `session.commit()` with the row it persists, and the
storage operations, in order. The `storage.download`/`storage.upload`
calls are modelled at the storage interface as fallible operations, the
caught exception carrying its text. -/

/-- Transient per-job workflow state (`AgentState` of
`app/agents/state.py`, as constructed in `run_agent`). -/
structure AgentState where
  messages : List String
  job_id : String
  user_id : String
  image_path : String
  image_data : List Nat
  image_mime_type : String
  image_analysis : Option String
  reasoning : Option String
  generated_code : Option String
  execution_result : Option String
  error : Option String
  current_step : Option String
deriving DecidableEq, Repr

/-- Partial state update returned by a stage: `some v` where the Python
dict carries the key, `none` where it does not. -/
structure NodeUpdate where
  image_analysis : Option (Option String) := none
  reasoning : Option (Option String) := none
  generated_code : Option (Option String) := none
  error : Option (Option String) := none
  current_step : Option String := none
deriving DecidableEq, Repr

/-- Merge of a stage's update dict into the state, as the graph runner
applies node results (present keys replace the field). -/
def applyUpdate (s : AgentState) (u : NodeUpdate) : AgentState :=
  { s with
    image_analysis := u.image_analysis.getD s.image_analysis
    reasoning := u.reasoning.getD s.reasoning
    generated_code := u.generated_code.getD s.generated_code
    error := u.error.getD s.error
    current_step := match u.current_step with
      | some c => some c
      | none => s.current_step }

/-- Latest user-authored message: every stage scans `reversed(messages)`
and takes the first entry with a `content` attribute, which every stored
message has, so the scan yields the last message, or the empty string
when there are none. -/
def lastMessage (msgs : List String) : String :=
  msgs.getLast?.getD ""

/-- Durable job row (`app/models/job.py`), the fields the lifecycle
routine reads or writes. -/
structure JobRow where
  id : String
  user_id : String
  file_id : String
  status : JobStatus
  task : String
  prompt : Option String
  result_url : Option String
  error_message : Option String
deriving DecidableEq, Repr

/-- File row (`app/models/file.py`), the fields the routine reads. -/
structure FileRow where
  id : String
  storage_path : String
  content_type : String
deriving DecidableEq, Repr

/-- Externally visible operations of one lifecycle run, in order. -/
inductive Ev where
  | commit (row : JobRow)
  | inferCall
  | downloadOp
  | uploadOp
deriving DecidableEq, Repr

/-- Environment of the workflow: the three inference backends and the
CPython syntax checker. -/
structure AgentEnv where
  vision : String → List Nat → String → Except String String
  reason : String → String → Except String String
  codegen : String → String → String → Except String String
  pyCompile : String → Option (Nat × String)

/-- Python's `user_prompt or default`: the last user message when
non-empty, else the stage's default instruction. -/
def effectivePrompt (msgs : List String) (dflt : String) : String :=
  if lastMessage msgs = "" then dflt else lastMessage msgs

/-- Python's `reasoning or default` fallback of the code-generation
stage. -/
def effectiveReasoning (r : Option String) : String :=
  if optTruthy r then r.getD ""
  else "Generate Python code to process and analyze the described data."

/-- Embedding of `validate_code_syntax` from `codegen_tool.py` (lines
45-58): `(True, None)` when the code compiles, else `(False, "Syntax
error at line {lineno}: {msg}")`. -/
def validate_code_syntax (pyCompile : String → Option (Nat × String))
    (code : String) : Bool × Option String :=
  match pyCompile code with
  | none => (true, none)
  | some (lineno, msg) =>
      (false, some ("Syntax error at line " ++ toString lineno ++ ": " ++ msg))

/-- Embedding of `analyze_image` from `vision_tool.py`: missing image
bytes is a data-level error; an adapter exception is caught and recorded
as a data-level error; success records the analysis and advances. -/
def analyze_image (env : AgentEnv) (s : AgentState) : NodeUpdate × List Ev :=
  if s.image_data = [] then
    ({ error := some (some "No image data available for analysis"),
       current_step := some "error" }, [])
  else
    match env.vision
        (effectivePrompt s.messages
          "Analyze this image and describe its contents.")
        s.image_data s.image_mime_type with
    | Except.error e =>
        ({ error := some (some ("Image analysis failed: " ++ e)),
           current_step := some "error" }, [Ev.inferCall])
    | Except.ok analysis =>
        ({ image_analysis := some (some analysis),
           current_step := some "analyze_complete",
           error := some none }, [Ev.inferCall])

/-- Embedding of `plan_approach` from `reasoning_tool.py`. -/
def plan_approach (env : AgentEnv) (s : AgentState) : NodeUpdate × List Ev :=
  if optTruthy s.image_analysis = false then
    ({ error := some (some "No image analysis available for planning"),
       current_step := some "error" }, [])
  else
    match env.reason (s.image_analysis.getD "")
        (effectivePrompt s.messages
          "Generate useful Python code based on the image.") with
    | Except.error e =>
        ({ error := some (some ("Planning failed: " ++ e)),
           current_step := some "error" }, [Ev.inferCall])
    | Except.ok reasoning =>
        ({ reasoning := some (some reasoning),
           current_step := some "planning_complete",
           error := some none }, [Ev.inferCall])

/-- Embedding of `generate_code` from `codegen_tool.py` (lines 61-158):
missing analysis is a data-level error; missing reasoning falls back to a
generic instruction; an adapter exception is caught as a data-level
error; otherwise the code is extracted and syntax-checked, and an invalid
result still returns the code under `codegen_complete_with_errors` with
an error string attached. -/
def generate_code (env : AgentEnv) (s : AgentState) : NodeUpdate × List Ev :=
  if optTruthy s.image_analysis = false then
    ({ error := some (some "No image analysis available for code generation"),
       current_step := some "error" }, [])
  else
    match env.codegen (s.image_analysis.getD "")
        (effectiveReasoning s.reasoning)
        (effectivePrompt s.messages "Generate useful Python code.") with
    | Except.error e =>
        ({ error := some (some ("Code generation failed: " ++ e)),
           current_step := some "error" }, [Ev.inferCall])
    | Except.ok response =>
        let code := extract_python_code response
        let v := validate_code_syntax env.pyCompile code
        if v.1 then
          ({ generated_code := some (some code),
             current_step := some "codegen_complete",
             error := some none }, [Ev.inferCall])
        else
          ({ generated_code := some (some code),
             current_step := some "codegen_complete_with_errors",
             error := some (some ("Code has syntax errors: " ++ v.2.getD ""))
           }, [Ev.inferCall])

/-- Embedding of the compiled graph of `create_agent_graph`: entry node
`analyze_image`, then conditional edges driven by `should_continue`
(`plan_approach` or end; `generate_code` or end; end). -/
def run_workflow (env : AgentEnv) (s0 : AgentState) :
    AgentState × List Ev :=
  let r1 := analyze_image env s0
  let s1 := applyUpdate s0 r1.1
  if should_continue s1.current_step s1.error = "plan_approach" then
    let r2 := plan_approach env s1
    let s2 := applyUpdate s1 r2.1
    if should_continue s2.current_step s2.error = "generate_code" then
      let r3 := generate_code env s2
      (applyUpdate s2 r3.1, r1.2 ++ r2.2 ++ r3.2)
    else (s2, r1.2 ++ r2.2)
  else (s1, r1.2)

/-- Embedding of `run_agent` from `app/agents/graph.py` (lines 115-178):
the initial state, with the user prompt as the single message when
non-empty, driven through the graph. -/
def run_agent (env : AgentEnv) (job_id user_id image_path : String)
    (image_data : List Nat) (image_mime_type : String)
    (user_prompt : String) : AgentState × List Ev :=
  run_workflow env
    { messages := if user_prompt ≠ "" then [user_prompt] else []
      job_id := job_id
      user_id := user_id
      image_path := image_path
      image_data := image_data
      image_mime_type := image_mime_type
      image_analysis := none
      reasoning := none
      generated_code := none
      execution_result := none
      error := none
      current_step := some "start" }

/-- Environment of one lifecycle run: the workflow environment, the two
database lookups, and the two storage operations (an `Except.error`
models the raised exception with its text — including, in the current
source, the attribute-resolution failure of `storage.download` /
`storage.upload` against a service exposing `download_file` /
`upload_file`). -/
structure TaskEnv where
  agent : AgentEnv
  job : Option JobRow
  file : Option FileRow
  download : Except String (List Nat)
  upload : Except String Unit

/-- Result of one lifecycle run: the final persisted row (`none` when
the job row was absent and nothing was written) and the operation
trace. -/
structure TaskRun where
  row : Option JobRow
  trace : List Ev
deriving DecidableEq, Repr

/-- Workflow invocation performed by the lifecycle routine for a given
job and file row (`run_agent(job_id=..., user_prompt=job.prompt or
"Analyze this image and generate useful Python code.")`). -/
def task_workflow (env : TaskEnv) (job : JobRow) (file : FileRow)
    (image_data : List Nat) : AgentState × List Ev :=
  run_agent env.agent job.id job.user_id file.storage_path image_data
    file.content_type
    (if optTruthy job.prompt then job.prompt.getD ""
     else "Analyze this image and generate useful Python code.")

/-- Embedding of `_process_job_async` from `app/workers/tasks.py` (lines
24-160): load the row (absent: return without persisting); persist
PROCESSING; resolve the file row (absent: persist FAILED "File not
found"); download (failure: persist FAILED with the prefixed exception
text); run the workflow; on a truthy workflow error persist FAILED with
it; else persist COMPLETED, uploading the generated code and recording
its location only when the code is non-empty, an upload exception turning
the job FAILED with the exception text. -/
def _process_job_async (env : TaskEnv) : TaskRun :=
  match env.job with
  | none => { row := none, trace := [] }
  | some job0 =>
    let job1 : JobRow := { job0 with status := JobStatus.processing }
    match env.file with
    | none =>
        let j2 : JobRow := { job1 with
          status := JobStatus.failed
          error_message := some "File not found" }
        { row := some j2, trace := [Ev.commit job1, Ev.commit j2] }
    | some file =>
        match env.download with
        | Except.error e =>
            let j2 : JobRow := { job1 with
              status := JobStatus.failed
              error_message := some ("Failed to download file: " ++ e) }
            { row := some j2,
              trace := [Ev.commit job1, Ev.downloadOp, Ev.commit j2] }
        | Except.ok image_data =>
            let r := task_workflow env job0 file image_data
            if optTruthy r.1.error then
              let j2 : JobRow := { job1 with
                status := JobStatus.failed
                error_message := r.1.error }
              { row := some j2,
                trace := [Ev.commit job1, Ev.downloadOp] ++ r.2 ++
                  [Ev.commit j2] }
            else
              let generated_code := r.1.generated_code.getD ""
              if generated_code ≠ "" then
                match env.upload with
                | Except.error e =>
                    let j2 : JobRow := { job1 with
                      status := JobStatus.failed
                      error_message := some e }
                    { row := some j2,
                      trace := [Ev.commit job1, Ev.downloadOp] ++ r.2 ++
                        [Ev.uploadOp, Ev.commit j2] }
                | Except.ok _ =>
                    let j2 : JobRow := { job1 with
                      status := JobStatus.completed
                      result_url := some
                        ("results/" ++ job0.id ++ "/generated_code.py") }
                    { row := some j2,
                      trace := [Ev.commit job1, Ev.downloadOp] ++ r.2 ++
                        [Ev.uploadOp, Ev.commit j2] }
              else
                let j2 : JobRow := { job1 with
                  status := JobStatus.completed }
                { row := some j2,
                  trace := [Ev.commit job1, Ev.downloadOp] ++ r.2 ++
                    [Ev.commit j2] }

/-- Concrete happy-path inference environment: fixed analysis and plan
texts and a response carrying valid code; the syntax oracle accepts
everything it is asked (only `x = 1` is ever queried, which CPython
accepts). -/
def agOK : AgentEnv :=
  ⟨fun _ _ _ => Except.ok "a chart", fun _ _ => Except.ok "use pandas",
   fun _ _ _ => Except.ok "```python\nx = 1\n```", fun _ => none⟩

/-- Concrete inference environment whose code response wraps `def f(:`,
with the oracle reporting the syntax error CPython reports for it. -/
def agSyntaxErr : AgentEnv :=
  ⟨fun _ _ _ => Except.ok "a chart", fun _ _ => Except.ok "use pandas",
   fun _ _ _ => Except.ok "```python\ndef f(:\n```",
   fun c => if c = "def f(:" then some (1, "invalid syntax") else none⟩

/-- Concrete fresh PENDING job row. -/
def jobA : JobRow :=
  ⟨"j1", "u1", "f1", JobStatus.pending, "analyze", some "do it", none, none⟩

/-- Concrete file row. -/
def fileA : FileRow := ⟨"f1", "uploads/f1.png", "image/png"⟩

/-- Lifecycle environment whose generated code fails the syntax check. -/
def envSyntaxErr : TaskEnv :=
  ⟨agSyntaxErr, some jobA, some fileA, Except.ok [1], Except.ok ()⟩

/-- Realizability constraint of the current source for the storage
download step: `tasks.py` line 76 invokes `storage.download`, but
`StorageService` (`app/services/storage.py`) exposes only
`download_file`, so on every run that reaches the download step the
attribute lookup raises `AttributeError` — that error, or an exception
of the `StorageService()` constructor before it, is caught at line 82,
and the step never returns bytes. Every realizable run of the source
therefore has an error outcome for the download operation; the
environments with a successful download remain only as an
over-approximation for the conditionally stated claims. -/
def downloadAlwaysRaises (env : TaskEnv) : Prop :=
  ∃ m, env.download = Except.error m

/-- Lifecycle environment of a realizable run: the download step raises
(the text approximates the `AttributeError` rendering, quote marks
omitted — the exact text is irrelevant, only that the step raises). -/
def envStorageBug : TaskEnv :=
  ⟨agOK, some jobA, some fileA,
   Except.error "StorageService object has no attribute download",
   Except.ok ()⟩

/-- Final row of the `envStorageBug` run: FAILED with the prefixed
download-failure message. -/
def rowStorageBug : JobRow :=
  ⟨"j1", "u1", "f1", JobStatus.failed, "analyze", some "do it", none,
   some ("Failed to download file: " ++
     "StorageService object has no attribute download")⟩

/-- C3: the workflow routing function is a pure function of
(`current_step`, `error`) equal to the reference definition: error plus
step "error" terminates; "analyze_complete" routes to the planning stage;
"planning_complete" routes to code generation; both codegen terminal
markers terminate; anything else (including unset) terminates. -/
theorem C3_router_equals_reference :
    ∀ (current_step error : Option String),
      should_continue current_step error = routerSpec current_step error := by
  intro cs err
  cases err with
  | none =>
      cases cs with
      | none => simp [should_continue, routerSpec, optTruthy]
      | some c => simp [should_continue, routerSpec, optTruthy]
  | some e =>
      by_cases he : e = ""
      · subst he
        cases cs with
        | none => simp [should_continue, routerSpec, optTruthy]
        | some c =>
            by_cases hc : c = "error"
            · subst hc; simp [should_continue, routerSpec, optTruthy, ENDnode]
            · simp [should_continue, routerSpec, optTruthy, hc]
      · cases cs with
        | none => simp [should_continue, routerSpec, optTruthy, he]
        | some c => simp [should_continue, routerSpec, optTruthy, he]

/-- C9 counterexample: for an active (PENDING) job the code chooses a TTL
of 10 seconds, which is not single-digit (not at most 9) as the claim
states. -/
theorem C9_counterexample_active_ttl_is_ten :
    job_snapshot_ttl JobStatus.pending = 10 ∧
      ¬ job_snapshot_ttl JobStatus.pending ≤ 9 := by
  constructor
  · rfl
  · decide

/-- C9 (amended): the TTL for a cached job snapshot is exactly 10 seconds
while the status is PENDING, PROCESSING, VALIDATING or EXECUTING, and
exactly 3600 seconds (one hour) once the status is COMPLETED or FAILED. -/
theorem C9_ttl_policy :
    (∀ s : JobStatus,
        s = JobStatus.pending ∨ s = JobStatus.processing ∨
          s = JobStatus.validating ∨ s = JobStatus.executing →
        job_snapshot_ttl s = 10) ∧
    (∀ s : JobStatus,
        s = JobStatus.completed ∨ s = JobStatus.failed →
        job_snapshot_ttl s = 3600) := by
  constructor
  · intro s hs
    rcases hs with h | h | h | h <;> subst h <;> decide
  · intro s hs
    rcases hs with h | h <;> subst h <;> decide

/-- Witness for C9: the amended theorem applied at the concrete statuses
PENDING and COMPLETED. -/
theorem C9_ttl_policy_witness :
    job_snapshot_ttl JobStatus.pending = 10 ∧
      job_snapshot_ttl JobStatus.completed = 3600 :=
  ⟨C9_ttl_policy.1 JobStatus.pending (Or.inl rfl),
   C9_ttl_policy.2 JobStatus.completed (Or.inl rfl)⟩

/-- Whitespace characters are not backticks, so no fence marker can start
at a whitespace character. -/
theorem startsWithL_fence_false_of_ws (c : Char) (t : List Char)
    (h : isPySpace c = true) : startsWithL fenceMark (c :: t) = false := by
  have hne : c ≠ Char.ofNat 96 := by
    intro heq
    rw [heq] at h
    exact absurd h (by decide)
  simp [fenceMark, startsWithL]
  intro heq
  exact absurd heq.symm hne

/-- A list with no closing fence stays without one when its head is
removed. -/
theorem beforeClose_none_tail {c : Char} {cs : List Char}
    (h : beforeClose (c :: cs) = none) : beforeClose cs = none := by
  unfold beforeClose at h
  by_cases hs : startsWithL fenceMark (c :: cs) = true
  · simp [hs] at h
  · simp [Bool.not_eq_true] at hs
    simp [hs] at h
    exact h

/-- A list with no closing fence has no fence marker at its head. -/
theorem beforeClose_none_head {c : Char} {cs : List Char}
    (h : beforeClose (c :: cs) = none) :
    startsWithL fenceMark (c :: cs) = false := by
  unfold beforeClose at h
  by_cases hs : startsWithL fenceMark (c :: cs) = true
  · simp [hs] at h
  · simp [Bool.not_eq_true] at hs
    exact hs

/-- Absence of a closing fence propagates to any drop. -/
theorem beforeClose_none_drop (n : Nat) :
    ∀ l : List Char, beforeClose l = none → beforeClose (l.drop n) = none := by
  induction n with
  | zero => intro l h; simpa using h
  | succ m ih =>
      intro l h
      cases l with
      | nil => simp [beforeClose]
      | cons c cs =>
          have := beforeClose_none_tail h
          simpa [List.drop_succ_cons] using ih cs this

/-- Absence of a closing fence propagates through `dropWhile`. -/
theorem beforeClose_none_dropWhile :
    ∀ l : List Char, beforeClose l = none →
      beforeClose (l.dropWhile isPySpace) = none := by
  intro l h
  induction l with
  | nil => simpa using h
  | cons c cs ih =>
      by_cases hc : isPySpace c = true
      · simp [List.dropWhile, hc]
        exact ih (beforeClose_none_tail h)
      · simp [Bool.not_eq_true] at hc
        simpa [List.dropWhile, hc] using h

/-- Every element of `takeWhile p l` satisfies `p`. -/
theorem mem_takeWhile_pred {p : Char → Bool} :
    ∀ l : List Char, ∀ c ∈ l.takeWhile p, p c = true := by
  intro l
  induction l with
  | nil => intro c hc; simp [List.takeWhile] at hc
  | cons a as ih =>
      intro c hc
      by_cases ha : p a = true
      · rw [List.takeWhile_cons, if_pos ha] at hc
        rcases List.mem_cons.mp hc with h | h
        · rwa [h]
        · exact ih c h
      · rw [List.takeWhile_cons, if_neg ha] at hc
        simp at hc

/-- Prepending whitespace shifts the closing-fence search by that
whitespace: the fence cannot start inside it. -/
theorem beforeClose_ws_append :
    ∀ w r : List Char, (∀ c ∈ w, isPySpace c = true) →
      beforeClose (w ++ r) = (beforeClose r).map (fun g => w ++ g) := by
  intro w
  induction w with
  | nil =>
      intro r _
      cases h : beforeClose r <;> simp [h]
  | cons a w ih =>
      intro r hw
      have ha : isPySpace a = true := hw a (List.mem_cons_self a w)
      have hs : startsWithL fenceMark (a :: (w ++ r)) = false :=
        startsWithL_fence_false_of_ws a _ ha
      have hrec := ih r (fun c hc => hw c (List.mem_cons_of_mem a hc))
      have step : beforeClose (a :: (w ++ r)) =
          (beforeClose (w ++ r)).map (fun g => a :: g) := by
        simp only [beforeClose, hs, Bool.false_eq_true, if_false]
      simp only [List.cons_append, step, hrec, Option.map_map]
      rfl

/-- Dropping leading whitespace commutes with prepending whitespace. -/
theorem dropWhile_ws_append :
    ∀ w x : List Char, (∀ c ∈ w, isPySpace c = true) →
      (w ++ x).dropWhile isPySpace = x.dropWhile isPySpace := by
  intro w
  induction w with
  | nil => intro x _; simp
  | cons a w ih =>
      intro x hw
      have ha : isPySpace a = true := hw a (List.mem_cons_self a w)
      simp only [List.cons_append, List.dropWhile_cons, ha, if_true]
      exact ih x (fun c hc => hw c (List.mem_cons_of_mem a hc))

/-- Head of `dropWhile p l` fails `p` (when nonempty). -/
theorem head_dropWhile_false {p : Char → Bool} :
    ∀ l : List Char, ∀ c cs, l.dropWhile p = c :: cs → p c = false := by
  intro l
  induction l with
  | nil => intro c cs h; simp [List.dropWhile] at h
  | cons a as ih =>
      intro c cs h
      by_cases ha : p a = true
      · rw [List.dropWhile_cons, if_pos ha] at h
        exact ih c cs h
      · rw [List.dropWhile_cons, if_neg ha] at h
        cases h
        simpa [Bool.not_eq_true] using ha

/-- `dropWhile` is idempotent. -/
theorem dropWhile_dropWhile {p : Char → Bool} (l : List Char) :
    (l.dropWhile p).dropWhile p = l.dropWhile p := by
  cases h : l.dropWhile p with
  | nil => simp
  | cons c cs =>
      have := head_dropWhile_false (p := p) l c cs h
      simp [List.dropWhile_cons, this]

/-- `dropTrailingWs` is idempotent. -/
theorem dropTrailingWs_idem (l : List Char) :
    dropTrailingWs (dropTrailingWs l) = dropTrailingWs l := by
  unfold dropTrailingWs
  rw [List.reverse_reverse, dropWhile_dropWhile]

/-- A successful closing-fence search splits the list as group plus a
remainder that starts at the fence. -/
theorem beforeClose_some_split :
    ∀ l g : List Char, beforeClose l = some g → ∃ s, l = g ++ s := by
  intro l
  induction l with
  | nil => intro g h; simp [beforeClose] at h
  | cons c cs ih =>
      intro g h
      unfold beforeClose at h
      by_cases hs : startsWithL fenceMark (c :: cs) = true
      · rw [if_pos hs] at h
        cases h
        exact ⟨c :: cs, rfl⟩
      · rw [if_neg hs] at h
        cases hg : beforeClose cs with
        | none => rw [hg] at h; simp at h
        | some g' =>
            rw [hg] at h
            simp at h
            rcases ih g' hg with ⟨s, hs'⟩
            exact ⟨s, by rw [← h, hs']; rfl⟩

/-- Every list splits as its trailing-whitespace-stripped part plus
whitespace. -/
theorem dropTrailingWs_split (l : List Char) :
    ∃ t, l = dropTrailingWs l ++ t ∧ ∀ c ∈ t, isPySpace c = true := by
  refine ⟨(l.reverse.takeWhile isPySpace).reverse, ?_, ?_⟩
  · unfold dropTrailingWs
    conv_lhs => rw [← List.reverse_reverse l]
    rw [← List.reverse_append]
    congr 1
    rw [← List.takeWhile_append_dropWhile (p := isPySpace) (l := l.reverse)]
    simp
  · intro c hc
    rw [List.mem_reverse] at hc
    exact mem_takeWhile_pred l.reverse c hc

/-- A list whose head (if any) is not whitespace is unchanged by
`dropWhile isPySpace`. -/
theorem dropWhile_eq_self_of_head (l : List Char)
    (h : ∀ c cs, l = c :: cs → isPySpace c = false) :
    l.dropWhile isPySpace = l := by
  cases l with
  | nil => rfl
  | cons c cs => simp [List.dropWhile_cons, h c cs rfl]

/-- Stripping a group whose head is not whitespace only removes trailing
whitespace. -/
theorem pyStrip_eq_dropTrailing_of_head (g : List Char)
    (hg : ∀ c cs, g = c :: cs → isPySpace c = false) :
    pyStrip (dropTrailingWs g) = dropTrailingWs g := by
  rcases dropTrailingWs_split g with ⟨t, hsplit, _⟩
  have hhead : ∀ c cs, dropTrailingWs g = c :: cs → isPySpace c = false := by
    intro c cs hdc
    apply hg c (cs ++ t)
    rw [hsplit, hdc]
    rfl
  unfold pyStrip
  rw [dropWhile_eq_self_of_head _ hhead, dropTrailingWs_idem]

/-- Stripping whitespace-prefixed group equals removing its trailing
whitespace, when the group head is not whitespace. -/
theorem pyStrip_ws_append_eq (w g : List Char)
    (hw : ∀ c ∈ w, isPySpace c = true)
    (hg : ∀ c cs, g = c :: cs → isPySpace c = false) :
    pyStrip (w ++ g) = dropTrailingWs g := by
  unfold pyStrip
  rw [dropWhile_ws_append w g hw, dropWhile_eq_self_of_head g hg]

/-- Unfolding equation of `findFirstBlock` at a cons cell. -/
theorem findFirstBlock_cons_eq (tag : List Char) (c : Char) (cs : List Char) :
    findFirstBlock tag (c :: cs) =
      match regexMatchAt tag (c :: cs) with
      | some g => some g
      | none => findFirstBlock tag cs := rfl

/-- Unfolding equation of `specFirstBlock` at a cons cell. -/
theorem specFirstBlock_cons_eq (tag : List Char) (c : Char) (cs : List Char) :
    specFirstBlock tag (c :: cs) =
      if startsWithL (fenceMark ++ tag) (c :: cs) then
        (beforeClose ((c :: cs).drop (3 + tag.length))).map pyStrip
      else specFirstBlock tag cs := rfl

/-- When no closing fence occurs after the first possible opening-marker
region, no fenced block with this tag matches anywhere in the list. -/
theorem findFirstBlock_none (tag : List Char) :
    ∀ l : List Char, beforeClose (l.drop (3 + tag.length)) = none →
      findFirstBlock tag l = none := by
  intro l
  induction l with
  | nil => intro _; rfl
  | cons c cs ih =>
      intro h
      have htail : beforeClose (cs.drop (3 + tag.length)) = none := by
        have h1 := beforeClose_none_drop 1 _ h
        rwa [List.drop_drop, List.drop_succ_cons] at h1
      have hmatch : regexMatchAt tag (c :: cs) = none := by
        unfold regexMatchAt
        by_cases hs : startsWithL (fenceMark ++ tag) (c :: cs) = true
        · rw [if_pos hs, beforeClose_none_dropWhile _ h]
          rfl
        · rw [if_neg hs]
      rw [findFirstBlock_cons_eq, hmatch]
      exact ih htail

/-- Central equivalence: the first regex-captured group, stripped, equals
the specification-side "trimmed inner text of the first fenced block". -/
theorem findFirstBlock_spec (tag : List Char) :
    ∀ l : List Char,
      (findFirstBlock tag l).map pyStrip = specFirstBlock tag l := by
  intro l
  induction l with
  | nil => rfl
  | cons c cs ih =>
      rw [findFirstBlock_cons_eq, specFirstBlock_cons_eq]
      by_cases hs : startsWithL (fenceMark ++ tag) (c :: cs) = true
      · rw [if_pos hs]
        have hbody := (List.takeWhile_append_dropWhile (p := isPySpace)
          (l := (c :: cs).drop (3 + tag.length))).symm
        cases hr : beforeClose
            (((c :: cs).drop (3 + tag.length)).dropWhile isPySpace) with
        | none =>
            have hbc : beforeClose ((c :: cs).drop (3 + tag.length)) = none := by
              conv_lhs => rw [hbody]
              rw [beforeClose_ws_append _ _ (mem_takeWhile_pred _), hr]
              rfl
            have hmatch : regexMatchAt tag (c :: cs) = none := by
              unfold regexMatchAt
              rw [if_pos hs, hr]
              rfl
            have htail : beforeClose (cs.drop (3 + tag.length)) = none := by
              have h1 := beforeClose_none_drop 1 _ hbc
              rwa [List.drop_drop, List.drop_succ_cons] at h1
            rw [hmatch, hbc]
            show (findFirstBlock tag cs).map pyStrip = Option.map pyStrip none
            rw [findFirstBlock_none tag cs htail]
        | some g =>
            have hghead : ∀ a as, g = a :: as → isPySpace a = false := by
              intro a as hg
              rcases beforeClose_some_split _ _ hr with ⟨s, hsplit⟩
              exact head_dropWhile_false ((c :: cs).drop (3 + tag.length)) a
                (as ++ s) (by rw [hsplit, hg]; rfl)
            have hmatch : regexMatchAt tag (c :: cs) =
                some (dropTrailingWs g) := by
              unfold regexMatchAt
              rw [if_pos hs, hr]
              rfl
            have hbc : beforeClose ((c :: cs).drop (3 + tag.length)) =
                some (((c :: cs).drop (3 + tag.length)).takeWhile isPySpace
                  ++ g) := by
              conv_lhs => rw [hbody]
              rw [beforeClose_ws_append _ _ (mem_takeWhile_pred _), hr]
              rfl
            rw [hmatch, hbc]
            show some (pyStrip (dropTrailingWs g)) =
              some (pyStrip
                (((c :: cs).drop (3 + tag.length)).takeWhile isPySpace ++ g))
            rw [pyStrip_eq_dropTrailing_of_head g hghead,
              pyStrip_ws_append_eq _ g (mem_takeWhile_pred _) hghead]
      · have hmatch : regexMatchAt tag (c :: cs) = none := by
          unfold regexMatchAt
          rw [if_neg hs]
        rw [if_neg hs, hmatch]
        show (findFirstBlock tag cs).map pyStrip = specFirstBlock tag cs
        exact ih

/-- C6 (amended): for every input, extraction returns the trimmed inner
text of the first python-tagged fenced block when one exists; otherwise
the trimmed text between the first fence marker and the next one when a
closed fence of any kind exists (so a block tagged for another language
yields its tag word together with its body); otherwise the whole input
trimmed. -/
theorem C6_extraction_matches_amended_spec :
    ∀ l : List Char, extract_python_code_chars l = specExtract l := by
  intro l
  simp only [extract_python_code_chars, specExtract]
  rw [← findFirstBlock_spec pyTag l, ← findFirstBlock_spec [] l]
  cases findFirstBlock pyTag l with
  | some g => rfl
  | none =>
      cases findFirstBlock [] l with
      | some g => rfl
      | none => rfl

/-- C6 counterexample: on an input whose only fenced block is tagged for
another language (`js`), there is no python-tagged block and no untagged
block, so the claim requires the whole input trimmed; the code instead
returns the inner text of that foreign-tagged fence with the tag word
glued to the front, which differs from the whole trimmed input. -/
theorem C6_counterexample_foreign_tag :
    extract_python_code "```js\nx\n```" = "js\nx" ∧
    specFirstBlock pyTag ("```js\nx\n```").data = none ∧
    specFirstUntagged ("```js\nx\n```").data = none ∧
    String.mk (pyStrip ("```js\nx\n```").data) = "```js\nx\n```" ∧
    ("js\nx" : String) ≠ "```js\nx\n```" := by
  refine ⟨?_, ?_, ?_, ?_, ?_⟩ <;> decide

/-- Reading back the key just written. -/
theorem storeSet_same (st : RLStore) (k : String) (d : KeyData) :
    storeSet st k d k = d := by
  simp [storeSet]

/-- Reading another key is unaffected by a write. -/
theorem storeSet_other (st : RLStore) (k : String) (d : KeyData)
    (q : String) (h : q ≠ k) : storeSet st k d q = st q := by
  simp [storeSet, h]

/-- Rate-limit keys of distinct identifiers are distinct. -/
theorem keyOf_inj {a b : String} (h : keyOf a = keyOf b) : a = b := by
  unfold keyOf at h
  have hd := congrArg String.data h
  rw [String.data_append, String.data_append] at hd
  have hl := List.append_cancel_left hd
  cases a
  cases b
  simp only [] at hl
  exact congrArg String.mk hl

/-- C7: with the store reachable and no operation failing, `is_allowed`
first discards the entries in the inclusive score range up to
(now − window); if at least `limit` entries remain it returns
`(false, 0)` without recording the current attempt and without touching
the expiry; otherwise it records `now`, sets the key expiry to the window
length, returns `(true, limit − n − 1)`, and touches no other key; and
distinct identifiers always use distinct keys. -/
theorem C7_sliding_window_semantics :
    ∀ (limit window : Nat) (st : RLStore) (now : Rat) (ident : String),
      ((zremrangebyscore (st (keyOf ident)).entries 0
          (now - (window : Rat))).length ≥ limit →
        is_allowed limit window true none now st ident =
          (storeSet st (keyOf ident)
            ⟨zremrangebyscore (st (keyOf ident)).entries 0
              (now - (window : Rat)), (st (keyOf ident)).ttl⟩, false, 0)) ∧
      ((zremrangebyscore (st (keyOf ident)).entries 0
          (now - (window : Rat))).length < limit →
        (is_allowed limit window true none now st ident).2 =
          (true, (limit : Int) -
            ((zremrangebyscore (st (keyOf ident)).entries 0
              (now - (window : Rat))).length : Int) - 1) ∧
        ((is_allowed limit window true none now st ident).1
            (keyOf ident)).entries =
          zaddScore (zremrangebyscore (st (keyOf ident)).entries 0
            (now - (window : Rat))) now ∧
        ((is_allowed limit window true none now st ident).1
            (keyOf ident)).ttl = some window ∧
        (∀ k, k ≠ keyOf ident →
          (is_allowed limit window true none now st ident).1 k = st k)) ∧
      (∀ ident2, ident2 ≠ ident → keyOf ident2 ≠ keyOf ident) := by
  intro limit window st now ident
  refine ⟨?_, ?_, ?_⟩
  · intro hge
    simp [is_allowed, storeSet_same, hge]
  · intro hlt
    have hnge : ¬ (zremrangebyscore (st (keyOf ident)).entries 0
        (now - (window : Rat))).length ≥ limit := Nat.not_le.mpr hlt
    refine ⟨?_, ?_, ?_, ?_⟩
    · simp [is_allowed, storeSet_same, hnge]
    · simp [is_allowed, storeSet_same, hnge]
    · simp [is_allowed, storeSet_same, hnge]
    · intro k hk
      simp [is_allowed, storeSet_same, hnge, storeSet_other _ _ _ _ hk]
  · intro ident2 hne heq
    exact hne (keyOf_inj heq)

/-- Witness for C7: with limit 10, window 60 and five prior hits inside
the window, the next call returns `(true, 4)`; with ten prior hits inside
the window, the call returns `(false, 0)` — the two concrete examples of
the specification. -/
theorem C7_sliding_window_semantics_witness :
    (is_allowed 10 60 true none 100
      ((fun _ => ⟨[50, 60, 70, 80, 90], none⟩) : RLStore) "user1").2 =
      (true, 4) ∧
    (is_allowed 10 60 true none 100
      ((fun _ => ⟨[91, 92, 93, 94, 95, 96, 97, 98, 99, 100], none⟩) :
        RLStore) "user2").2 = (false, 0) := by
  constructor
  · have h := (C7_sliding_window_semantics 10 60
      ((fun _ => ⟨[50, 60, 70, 80, 90], none⟩) : RLStore) 100 "user1").2.1
      (by norm_num [zremrangebyscore])
    rw [h.1]
    norm_num [zremrangebyscore]
  · have h := (C7_sliding_window_semantics 10 60
      ((fun _ => ⟨[91, 92, 93, 94, 95, 96, 97, 98, 99, 100], none⟩) :
        RLStore) 100 "user2").1
      (by norm_num [zremrangebyscore])
    rw [h]

/-- C8: with no Redis connection object the call returns `(true, limit)`
and leaves the store untouched; and whenever one of the Redis operations
that the control flow actually reaches raises (`zremrangebyscore`,
`zcard`, or — only reached below the limit — `zadd`, `expire`), the call
also returns `(true, limit)`. -/
theorem C8_fail_open :
    ∀ (limit window : Nat) (failAt : Option Nat) (now : Rat) (st : RLStore)
      (ident : String),
      is_allowed limit window false failAt now st ident =
        (st, true, (limit : Int)) ∧
      (is_allowed limit window true (some 0) now st ident).2 =
        (true, (limit : Int)) ∧
      (is_allowed limit window true (some 1) now st ident).2 =
        (true, (limit : Int)) ∧
      ((zremrangebyscore (st (keyOf ident)).entries 0
          (now - (window : Rat))).length < limit →
        (is_allowed limit window true (some 2) now st ident).2 =
          (true, (limit : Int)) ∧
        (is_allowed limit window true (some 3) now st ident).2 =
          (true, (limit : Int))) := by
  intro limit window failAt now st ident
  refine ⟨?_, ?_, ?_, ?_⟩
  · simp [is_allowed]
  · simp [is_allowed]
  · simp [is_allowed]
  · intro hlt
    have hnge : ¬ (zremrangebyscore (st (keyOf ident)).entries 0
        (now - (window : Rat))).length ≥ limit := Nat.not_le.mpr hlt
    constructor
    · simp [is_allowed, storeSet_same, hnge]
    · simp [is_allowed, storeSet_same, hnge]

/-- Witness for C8: the theorem applied with limit 10 and an empty store,
covering both the missing-connection case and a raising `zadd`. -/
theorem C8_fail_open_witness :
    is_allowed 10 60 false none 100 ((fun _ => ⟨[], none⟩) : RLStore) "u" =
      (((fun _ => ⟨[], none⟩) : RLStore), true, 10) ∧
    (is_allowed 10 60 true (some 2) 100
      ((fun _ => ⟨[], none⟩) : RLStore) "u").2 = (true, 10) := by
  refine ⟨(C8_fail_open 10 60 none 100
    ((fun _ => ⟨[], none⟩) : RLStore) "u").1, ?_⟩
  exact ((C8_fail_open 10 60 (some 2) 100
    ((fun _ => ⟨[], none⟩) : RLStore) "u").2.2.2
    (by norm_num [zremrangebyscore])).1

/-- C10 counterexample: a 200 response whose JSON body lacks the
`choices` key makes the vision variant propagate a bare `KeyError` —
a failing generate call surfaced as neither of the two typed error
kinds. -/
theorem C10_counterexample_vision_missing_key :
    VisionLLMAdapter.generate_with_image "qwen"
        (HttpOutcome.resp 200 "{}" (BodyParse.missingKey "choices")) =
      GenOutcome.untyped "KeyError" "choices" ∧
    isTypedAdapterError
      (VisionLLMAdapter.generate_with_image "qwen"
        (HttpOutcome.resp 200 "{}" (BodyParse.missingKey "choices"))) =
      false := by
  exact ⟨rfl, rfl⟩

/-- C10 (amended): connect and timeout failures raise the connection
error kind and a non-200 status raises the response error kind, in both
variants; of the malformed-body failures, only a missing key in the text
variant is mapped to the response error kind — JSON-decode failures and
empty `choices` lists in both variants, other transport errors in both
variants, and missing keys in the vision variant propagate as untyped
exceptions. -/
theorem C10_error_taxonomy :
    ∀ (model m body : String) (status : Nat) (p : BodyParse),
      TextLLMAdapter.generate model
          (HttpOutcome.exc (HttpxExc.connectError m)) =
        GenOutcome.connectionError
          ("Failed to connect to " ++ model ++ ": " ++ m) ∧
      VisionLLMAdapter.generate_with_image model
          (HttpOutcome.exc (HttpxExc.connectError m)) =
        GenOutcome.connectionError
          ("Failed to connect to " ++ model ++ ": " ++ m) ∧
      TextLLMAdapter.generate model
          (HttpOutcome.exc (HttpxExc.timeoutExc m)) =
        GenOutcome.connectionError
          ("Request to " ++ model ++ " timed out: " ++ m) ∧
      VisionLLMAdapter.generate_with_image model
          (HttpOutcome.exc (HttpxExc.timeoutExc m)) =
        GenOutcome.connectionError
          ("Request to " ++ model ++ " timed out: " ++ m) ∧
      (status ≠ 200 →
        TextLLMAdapter.generate model (HttpOutcome.resp status body p) =
          GenOutcome.responseError
            ("LLM returned status " ++ toString status ++ ": " ++ body) ∧
        VisionLLMAdapter.generate_with_image model
            (HttpOutcome.resp status body p) =
          GenOutcome.responseError
            ("LLM returned status " ++ toString status ++ ": " ++ body)) ∧
      TextLLMAdapter.generate model
          (HttpOutcome.resp 200 body (BodyParse.ok m)) =
        GenOutcome.ok m ∧
      TextLLMAdapter.generate model
          (HttpOutcome.resp 200 body (BodyParse.missingKey m)) =
        GenOutcome.responseError
          ("Unexpected response format from " ++ model ++ ": " ++ m) ∧
      VisionLLMAdapter.generate_with_image model
          (HttpOutcome.resp 200 body (BodyParse.missingKey m)) =
        GenOutcome.untyped "KeyError" m ∧
      TextLLMAdapter.generate model
          (HttpOutcome.resp 200 body (BodyParse.notJson m)) =
        GenOutcome.untyped "json.JSONDecodeError" m ∧
      VisionLLMAdapter.generate_with_image model
          (HttpOutcome.resp 200 body (BodyParse.notJson m)) =
        GenOutcome.untyped "json.JSONDecodeError" m ∧
      TextLLMAdapter.generate model
          (HttpOutcome.resp 200 body BodyParse.emptyChoices) =
        GenOutcome.untyped "IndexError" "list index out of range" ∧
      TextLLMAdapter.generate model
          (HttpOutcome.exc (HttpxExc.otherSocket m)) =
        GenOutcome.untyped "httpx.TransportError" m ∧
      VisionLLMAdapter.generate_with_image model
          (HttpOutcome.exc (HttpxExc.otherSocket m)) =
        GenOutcome.untyped "httpx.TransportError" m := by
  intro model m body status p
  refine ⟨rfl, rfl, rfl, rfl, ?_, rfl, rfl, rfl, rfl, rfl, rfl, rfl, rfl⟩
  intro hne
  constructor
  · simp [TextLLMAdapter.generate, hne]
  · simp [VisionLLMAdapter.generate_with_image, hne]

/-- Witness for C10: the taxonomy theorem applied at a concrete 500
response, discharging the non-200 hypothesis. -/
theorem C10_error_taxonomy_witness :
    TextLLMAdapter.generate "deepseek"
        (HttpOutcome.resp 500 "oops" (BodyParse.ok "x")) =
      GenOutcome.responseError ("LLM returned status 500: oops") ∧
    VisionLLMAdapter.generate_with_image "qwen"
        (HttpOutcome.exc (HttpxExc.connectError "down")) =
      GenOutcome.connectionError ("Failed to connect to qwen: down") := by
  constructor
  · exact ((C10_error_taxonomy "deepseek" "x" "oops" 500
      (BodyParse.ok "x")).2.2.2.2.1 (by decide)).1
  · exact (C10_error_taxonomy "qwen" "down" "" 200 (BodyParse.ok "")).2.1

/-- Workflow runs that end at `codegen_complete_with_errors` carry a
"Code has syntax errors: ..." error string: only the invalid-syntax
branch of the code-generation stage produces this terminal marker. -/
theorem run_workflow_cwe (env : AgentEnv) (s0 : AgentState)
    (hstep : (run_workflow env s0).1.current_step =
      some "codegen_complete_with_errors") :
    ∃ m, (run_workflow env s0).1.error =
      some ("Code has syntax errors: " ++ m) := by
  by_cases himg : s0.image_data = []
  · exfalso
    simp [run_workflow, analyze_image, himg, applyUpdate, should_continue,
      optTruthy, ENDnode] at hstep
  · cases hv : env.vision
        (effectivePrompt s0.messages
          "Analyze this image and describe its contents.")
        s0.image_data s0.image_mime_type with
    | error e =>
        exfalso
        simp [run_workflow, analyze_image, himg, hv, applyUpdate,
          should_continue, optTruthy, ENDnode] at hstep
    | ok analysis =>
        by_cases hta : analysis = ""
        · exfalso
          simp [run_workflow, analyze_image, himg, hv, plan_approach, hta,
            applyUpdate, should_continue, optTruthy, ENDnode] at hstep
        · cases hr : env.reason analysis
              (effectivePrompt s0.messages
                "Generate useful Python code based on the image.") with
          | error e =>
              exfalso
              simp [run_workflow, analyze_image, himg, hv, plan_approach,
                hta, hr, applyUpdate, should_continue, optTruthy,
                ENDnode] at hstep
          | ok reasoning =>
              cases hcg : env.codegen analysis
                  (effectiveReasoning (some reasoning))
                  (effectivePrompt s0.messages
                    "Generate useful Python code.") with
              | error e =>
                  exfalso
                  simp [run_workflow, analyze_image, himg, hv,
                    plan_approach, hta, hr, generate_code, hcg,
                    applyUpdate, should_continue, optTruthy,
                    ENDnode] at hstep
              | ok resp =>
                  cases hpc : env.pyCompile (extract_python_code resp) with
                  | none =>
                      exfalso
                      simp [run_workflow, analyze_image, himg, hv,
                        plan_approach, hta, hr, generate_code, hcg,
                        validate_code_syntax, hpc, applyUpdate,
                        should_continue, optTruthy, ENDnode] at hstep
                  | some lm =>
                      refine ⟨"Syntax error at line " ++ toString lm.1 ++
                        ": " ++ lm.2, ?_⟩
                      simp [run_workflow, analyze_image, himg, hv,
                        plan_approach, hta, hr, generate_code, hcg,
                        validate_code_syntax, hpc, applyUpdate,
                        should_continue, optTruthy, ENDnode]

/-- C4: whenever the code-generation stage reaches extraction and the
extracted code fails the syntax check, the stage still returns that code
in `generated_code`, marks the step `codegen_complete_with_errors`, and
attaches an error string describing the syntax problem — it does not
route to the "error" step and does not withhold the code. -/
theorem C4_codegen_soft_failure :
    ∀ (env : AgentEnv) (s : AgentState) (resp : String) (ln : Nat)
      (msg : String),
      optTruthy s.image_analysis = true →
      env.codegen (s.image_analysis.getD "") (effectiveReasoning s.reasoning)
        (effectivePrompt s.messages "Generate useful Python code.") =
        Except.ok resp →
      env.pyCompile (extract_python_code resp) = some (ln, msg) →
      (generate_code env s).1 =
        { generated_code := some (some (extract_python_code resp))
          current_step := some "codegen_complete_with_errors"
          error := some (some ("Code has syntax errors: " ++
            ("Syntax error at line " ++ toString ln ++ ": " ++ msg))) } ∧
      (generate_code env s).1.current_step ≠ some "error" := by
  intro env s resp ln msg himg hcg hpc
  have h : (generate_code env s).1 =
      { generated_code := some (some (extract_python_code resp))
        current_step := some "codegen_complete_with_errors"
        error := some (some ("Code has syntax errors: " ++
          ("Syntax error at line " ++ toString ln ++ ": " ++ msg))) } := by
    simp [generate_code, himg, hcg, validate_code_syntax, hpc]
  refine ⟨h, ?_⟩
  rw [h]
  simp

/-- Witness for C4: a concrete code-generation run whose model response
wraps `def f(:` in a python fence; the oracle reports the syntax error
CPython reports for it, and the stage returns the code under
`codegen_complete_with_errors`. -/
theorem C4_codegen_soft_failure_witness :
    (generate_code
      ⟨(fun _ _ _ => Except.ok ""), (fun _ _ => Except.ok ""),
       (fun _ _ _ => Except.ok "```python\ndef f(:\n```"),
       (fun c => if c = "def f(:" then some (1, "invalid syntax")
         else none)⟩
      ⟨["make a plot"], "j", "u", "p", [1], "image/png", some "a chart",
       some "use pandas", none, none, none,
       some "planning_complete"⟩).1 =
      { generated_code := some (some "def f(:")
        current_step := some "codegen_complete_with_errors"
        error := some (some
          "Code has syntax errors: Syntax error at line 1: invalid syntax") }
      ∧
    (generate_code
      ⟨(fun _ _ _ => Except.ok ""), (fun _ _ => Except.ok ""),
       (fun _ _ _ => Except.ok "```python\ndef f(:\n```"),
       (fun c => if c = "def f(:" then some (1, "invalid syntax")
         else none)⟩
      ⟨["make a plot"], "j", "u", "p", [1], "image/png", some "a chart",
       some "use pandas", none, none, none,
       some "planning_complete"⟩).1.current_step ≠ some "error" := by
  have h := C4_codegen_soft_failure
    ⟨(fun _ _ _ => Except.ok ""), (fun _ _ => Except.ok ""),
     (fun _ _ _ => Except.ok "```python\ndef f(:\n```"),
     (fun c => if c = "def f(:" then some (1, "invalid syntax")
       else none)⟩
    ⟨["make a plot"], "j", "u", "p", [1], "image/png", some "a chart",
     some "use pandas", none, none, none, some "planning_complete"⟩
    "```python\ndef f(:\n```" 1 "invalid syntax"
    (by decide) (by rfl) (by decide)
  refine ⟨?_, h.2⟩
  rw [h.1]
  decide

/-- The analyze stage emits inference-call events only. -/
theorem analyze_image_infer_only (env : AgentEnv) (s : AgentState) :
    ∀ e ∈ (analyze_image env s).2, e = Ev.inferCall := by
  intro e he
  unfold analyze_image at he
  split at he
  · simp at he
  · split at he <;> simpa using he

/-- The planning stage emits inference-call events only. -/
theorem plan_approach_infer_only (env : AgentEnv) (s : AgentState) :
    ∀ e ∈ (plan_approach env s).2, e = Ev.inferCall := by
  intro e he
  unfold plan_approach at he
  split at he
  · simp at he
  · split at he <;> simpa using he

/-- Membership in the event component of a branch whose two arms emit
the same single event. -/
theorem mem_snd_ite_singleton {α β : Type} (c : Prop) [Decidable c]
    (a b : α) (x e : β) (he : e ∈ (if c then (a, [x]) else (b, [x])).2) :
    e = x := by
  by_cases h : c
  · rw [if_pos h] at he
    simpa using he
  · rw [if_neg h] at he
    simpa using he

/-- The code-generation stage emits inference-call events only. -/
theorem generate_code_infer_only (env : AgentEnv) (s : AgentState) :
    ∀ e ∈ (generate_code env s).2, e = Ev.inferCall := by
  intro e he
  unfold generate_code at he
  split at he
  · simp at he
  · split at he
    · simpa using he
    · exact mem_snd_ite_singleton _ _ _ _ e he

/-- The workflow emits inference-call events only: every stage does. -/
theorem run_workflow_infer_only (env : AgentEnv) (s0 : AgentState) :
    ∀ e ∈ (run_workflow env s0).2, e = Ev.inferCall := by
  intro e he
  simp only [run_workflow] at he
  split at he
  · split at he
    · simp only [List.mem_append] at he
      rcases he with (he | he) | he
      · exact analyze_image_infer_only env _ e he
      · exact plan_approach_infer_only env _ e he
      · exact generate_code_infer_only env _ e he
    · simp only [List.mem_append] at he
      rcases he with he | he
      · exact analyze_image_infer_only env _ e he
      · exact plan_approach_infer_only env _ e he
  · exact analyze_image_infer_only env _ e he

/-- C5: for every lifecycle run whose workflow terminates at
`codegen_complete_with_errors`, the workflow error is a "Code has syntax
errors: ..." string, the job is persisted FAILED with exactly that string
as `error_message`, no storage upload is performed, and `result_url`
stays unset. -/
theorem C5_cwe_job_failed :
    ∀ (env : TaskEnv) (j : JobRow) (f : FileRow) (bs : List Nat),
      env.job = some j → j.result_url = none →
      env.file = some f → env.download = Except.ok bs →
      (task_workflow env j f bs).1.current_step =
        some "codegen_complete_with_errors" →
      (∃ m, (task_workflow env j f bs).1.error =
        some ("Code has syntax errors: " ++ m)) ∧
      (_process_job_async env).row =
        some { j with status := JobStatus.failed,
                      error_message := (task_workflow env j f bs).1.error } ∧
      ((_process_job_async env).row.map (fun r => r.result_url)) =
        some none ∧
      Ev.uploadOp ∉ (_process_job_async env).trace := by
  intro env j f bs hj hurl hf hd hstep
  obtain ⟨m, herr⟩ := run_workflow_cwe env.agent _ hstep
  have herr2 : (task_workflow env j f bs).1.error =
      some ("Code has syntax errors: " ++ m) := herr
  have hne : ("Code has syntax errors: " ++ m) ≠ "" := by
    intro h0
    have hl := congrArg String.length h0
    rw [String.length_append] at hl
    have h24 : ("Code has syntax errors: ").length = 24 := rfl
    rw [h24] at hl
    simp at hl
  have htru : optTruthy (task_workflow env j f bs).1.error = true := by
    rw [herr2]
    simp [optTruthy, hne]
  have hrow : (_process_job_async env).row =
      some { j with status := JobStatus.failed,
                    error_message := (task_workflow env j f bs).1.error } := by
    simp [_process_job_async, hj, hf, hd, htru]
  have htr : (_process_job_async env).trace =
      [Ev.commit { j with status := JobStatus.processing }, Ev.downloadOp]
        ++ (task_workflow env j f bs).2
        ++ [Ev.commit { j with
                        status := JobStatus.failed,
                        error_message := (task_workflow env j f bs).1.error }]
      := by
    simp [_process_job_async, hj, hf, hd, htru]
  refine ⟨⟨m, herr2⟩, hrow, ?_, ?_⟩
  · rw [hrow]
    simp [hurl]
  · rw [htr]
    intro hmem
    simp only [List.mem_append, List.mem_cons, List.mem_singleton] at hmem
    rcases hmem with ((h1 | h1) | h1) | h1
    · exact absurd h1 (by simp)
    · simp at h1
    · have := run_workflow_infer_only env.agent _ Ev.uploadOp h1
      exact absurd this (by simp)
    · exact absurd h1 (by simp)

/-- Lifecycle run with the file row absent. -/
theorem run_file_none (env : TaskEnv) (j : JobRow)
    (hj : env.job = some j) (hf : env.file = none) :
    _process_job_async env =
      ⟨some { j with status := JobStatus.failed,
                     error_message := some "File not found" },
       [Ev.commit { j with status := JobStatus.processing },
        Ev.commit { j with status := JobStatus.failed,
                           error_message := some "File not found" }]⟩ := by
  simp [_process_job_async, hj, hf]

/-- Lifecycle run with a failing storage download. -/
theorem run_download_error (env : TaskEnv) (j : JobRow) (f : FileRow)
    (e : String) (hj : env.job = some j) (hf : env.file = some f)
    (hd : env.download = Except.error e) :
    _process_job_async env =
      ⟨some { j with status := JobStatus.failed,
                     error_message :=
                       some ("Failed to download file: " ++ e) },
       [Ev.commit { j with status := JobStatus.processing }, Ev.downloadOp,
        Ev.commit { j with status := JobStatus.failed,
                           error_message :=
                             some ("Failed to download file: " ++ e) }]⟩ := by
  simp [_process_job_async, hj, hf, hd]

/-- Lifecycle run whose workflow ends with a truthy error. -/
theorem run_wf_error (env : TaskEnv) (j : JobRow) (f : FileRow)
    (bs : List Nat) (hj : env.job = some j) (hf : env.file = some f)
    (hd : env.download = Except.ok bs)
    (herr : optTruthy (task_workflow env j f bs).1.error = true) :
    _process_job_async env =
      ⟨some { j with status := JobStatus.failed,
                     error_message := (task_workflow env j f bs).1.error },
       [Ev.commit { j with status := JobStatus.processing }, Ev.downloadOp]
         ++ (task_workflow env j f bs).2
         ++ [Ev.commit { j with
               status := JobStatus.failed,
               error_message := (task_workflow env j f bs).1.error }]⟩ := by
  simp [_process_job_async, hj, hf, hd, herr]

/-- Lifecycle run succeeding with non-empty code and a failing upload. -/
theorem run_upload_error (env : TaskEnv) (j : JobRow) (f : FileRow)
    (bs : List Nat) (e : String) (hj : env.job = some j)
    (hf : env.file = some f) (hd : env.download = Except.ok bs)
    (herr : optTruthy (task_workflow env j f bs).1.error = false)
    (hgc : (task_workflow env j f bs).1.generated_code.getD "" ≠ "")
    (hu : env.upload = Except.error e) :
    _process_job_async env =
      ⟨some { j with status := JobStatus.failed, error_message := some e },
       [Ev.commit { j with status := JobStatus.processing }, Ev.downloadOp]
         ++ (task_workflow env j f bs).2
         ++ [Ev.uploadOp,
             Ev.commit { j with status := JobStatus.failed,
                                error_message := some e }]⟩ := by
  simp [_process_job_async, hj, hf, hd, herr, hgc, hu]

/-- Lifecycle run succeeding with non-empty code and a succeeding
upload. -/
theorem run_upload_ok (env : TaskEnv) (j : JobRow) (f : FileRow)
    (bs : List Nat) (u : Unit) (hj : env.job = some j)
    (hf : env.file = some f) (hd : env.download = Except.ok bs)
    (herr : optTruthy (task_workflow env j f bs).1.error = false)
    (hgc : (task_workflow env j f bs).1.generated_code.getD "" ≠ "")
    (hu : env.upload = Except.ok u) :
    _process_job_async env =
      ⟨some { j with status := JobStatus.completed,
                     result_url :=
                       some ("results/" ++ j.id ++ "/generated_code.py") },
       [Ev.commit { j with status := JobStatus.processing }, Ev.downloadOp]
         ++ (task_workflow env j f bs).2
         ++ [Ev.uploadOp,
             Ev.commit { j with
               status := JobStatus.completed,
               result_url :=
                 some ("results/" ++ j.id ++ "/generated_code.py") }]⟩ := by
  simp [_process_job_async, hj, hf, hd, herr, hgc, hu]

/-- Lifecycle run succeeding with empty generated code: COMPLETED, no
upload, no result location. -/
theorem run_empty_code (env : TaskEnv) (j : JobRow) (f : FileRow)
    (bs : List Nat) (hj : env.job = some j) (hf : env.file = some f)
    (hd : env.download = Except.ok bs)
    (herr : optTruthy (task_workflow env j f bs).1.error = false)
    (hgc : (task_workflow env j f bs).1.generated_code.getD "" = "") :
    _process_job_async env =
      ⟨some { j with status := JobStatus.completed },
       [Ev.commit { j with status := JobStatus.processing }, Ev.downloadOp]
         ++ (task_workflow env j f bs).2
         ++ [Ev.commit { j with status := JobStatus.completed }]⟩ := by
  simp [_process_job_async, hj, hf, hd, herr, hgc]

/-- A truthy optional string is a non-empty string. -/
theorem optTruthy_some (o : Option String) (h : optTruthy o = true) :
    ∃ m, o = some m ∧ m ≠ "" := by
  cases o with
  | none => simp [optTruthy] at h
  | some s =>
      refine ⟨s, rfl, ?_⟩
      simpa [optTruthy] using h

/-- Appending to a non-empty string prefix never yields the empty
string. -/
theorem append_ne_empty_left (a b : String) (ha : a.length ≠ 0) :
    a ++ b ≠ "" := by
  intro h
  have hl := congrArg String.length h
  rw [String.length_append] at hl
  have h0 : ("" : String).length = 0 := rfl
  rw [h0] at hl
  omega

/-- Witness for C5: the theorem applied to the concrete syntax-error
run; the job is persisted FAILED carrying the workflow's "Code has
syntax errors" string, and no upload happens. -/
theorem C5_cwe_job_failed_witness :
    (_process_job_async envSyntaxErr).row = some
      ⟨"j1", "u1", "f1", JobStatus.failed, "analyze", some "do it", none,
       some "Code has syntax errors: Syntax error at line 1: invalid syntax"⟩
    ∧ Ev.uploadOp ∉ (_process_job_async envSyntaxErr).trace := by
  have h := C5_cwe_job_failed envSyntaxErr jobA fileA [1] rfl rfl rfl rfl
    (by decide)
  constructor
  · rw [h.2.1]
    decide
  · exact h.2.2.2

/-- C1: on every realizable run of the source (the download step always
raises, `storage.download` not being an attribute of `StorageService`),
a job driven to a terminal status from a fresh row ends COMPLETED or
FAILED with exactly one of `result_url` and `error_message` set:
`result_url` is set iff the job ended COMPLETED and `error_message` is
set iff it ended FAILED. In the current source FAILED is the only
reachable terminal status, with `error_message` set and `result_url`
unset. -/
theorem C1_terminal_exclusive_fields :
    ∀ (env : TaskEnv) (j : JobRow),
      env.job = some j → downloadAlwaysRaises env →
      j.result_url = none → j.error_message = none →
      ∀ r, (_process_job_async env).row = some r →
        (r.status = JobStatus.completed ∨ r.status = JobStatus.failed) ∧
        (r.error_message.isSome ↔ r.status = JobStatus.failed) ∧
        (r.result_url.isSome ↔ r.status = JobStatus.completed) ∧
        ((r.result_url.isSome ∧ r.error_message = none) ∨
         (r.result_url = none ∧ r.error_message.isSome)) := by
  intro env j hj hdl hru hre r hr
  obtain ⟨m, hm⟩ := hdl
  cases hf : env.file with
  | none =>
      rw [run_file_none env j hj hf] at hr
      injection hr with hr'
      subst hr'
      exact ⟨Or.inr rfl, by simp, by simp [hru],
        Or.inr ⟨by simp [hru], by simp⟩⟩
  | some f =>
      cases hd : env.download with
      | ok bs =>
          rw [hm] at hd
          cases hd
      | error e =>
          rw [run_download_error env j f e hj hf hd] at hr
          injection hr with hr'
          subst hr'
          exact ⟨Or.inr rfl, by simp, by simp [hru],
            Or.inr ⟨by simp [hru], by simp⟩⟩

/-- Witness for C1: the theorem applied to the concrete realizable run
whose download step raises; the final row is FAILED with `error_message`
set and `result_url` unset — exactly one of the two fields. -/
theorem C1_terminal_exclusive_fields_witness :
    (rowStorageBug.status = JobStatus.completed ∨
      rowStorageBug.status = JobStatus.failed) ∧
    (rowStorageBug.error_message.isSome ↔
      rowStorageBug.status = JobStatus.failed) ∧
    (rowStorageBug.result_url.isSome ↔
      rowStorageBug.status = JobStatus.completed) ∧
    ((rowStorageBug.result_url.isSome ∧
        rowStorageBug.error_message = none) ∨
     (rowStorageBug.result_url = none ∧
        rowStorageBug.error_message.isSome)) :=
  C1_terminal_exclusive_fields envStorageBug jobA rfl
    ⟨"StorageService object has no attribute download", rfl⟩ rfl rfl
    rowStorageBug (by decide)

/-- C2: on every realizable run of the source (the download step always
raises), a run with no job row persists nothing; a run with a job row
first commits the row as PROCESSING, before any other operation and in
particular before any inference call; and its final row is terminal —
never left parked in PROCESSING — with a non-empty human-readable
`error_message` on every failure path (here "File not found" or the
"Failed to download file: "-prefixed exception text, non-empty by its
prefix regardless of the exception rendering). -/
theorem C2_lifecycle_contract :
    ∀ env : TaskEnv, downloadAlwaysRaises env →
      (env.job = none → _process_job_async env = ⟨none, []⟩) ∧
      (∀ j, env.job = some j →
        (_process_job_async env).trace.head? =
          some (Ev.commit { j with status := JobStatus.processing }) ∧
        (∃ r, (_process_job_async env).row = some r ∧
          r.status ≠ JobStatus.processing ∧
          (r.status = JobStatus.completed ∨ r.status = JobStatus.failed) ∧
          (r.status = JobStatus.failed →
            ∃ m, r.error_message = some m ∧ m ≠ ""))) := by
  intro env hdl
  obtain ⟨m0, hm0⟩ := hdl
  constructor
  · intro hj
    simp [_process_job_async, hj]
  · intro j hj
    cases hf : env.file with
    | none =>
        rw [run_file_none env j hj hf]
        refine ⟨rfl, _, rfl, by simp, Or.inr rfl, ?_⟩
        intro _
        exact ⟨"File not found", rfl, by decide⟩
    | some f =>
        cases hd : env.download with
        | ok bs =>
            rw [hm0] at hd
            cases hd
        | error e =>
            rw [run_download_error env j f e hj hf hd]
            refine ⟨rfl, _, rfl, by simp, Or.inr rfl, ?_⟩
            intro _
            exact ⟨"Failed to download file: " ++ e, rfl,
              append_ne_empty_left _ _ (by decide)⟩

/-- Witness for C2: the theorem applied to the concrete realizable run;
its first trace event is the PROCESSING commit of the loaded row. -/
theorem C2_lifecycle_contract_witness :
    (_process_job_async envStorageBug).trace.head? =
      some (Ev.commit { jobA with status := JobStatus.processing }) :=
  ((C2_lifecycle_contract envStorageBug
    ⟨"StorageService object has no attribute download", rfl⟩).2 jobA rfl).1
